import Mathlib

/-!
Verification of the session-context resolution and dual-concurrency execution
model of `pywebio/session/__init__.py`.

The Python module keeps a process-wide list `_active_session_cls` of session
implement classes, registers an implement per task function by inspecting the
function's shape, resolves the current implement by probing the registered
classes, and offers a dispatch adapter (`chose_impl`) plus interactive
operations (`hold`, `eval_js`, `set_env`, ...) built on those pieces.

The embedding is shallow: the mutable global registry becomes an explicit
`List SessionCls` threaded through each operation, and exceptions become
`Except PyError`.
-/

/-- The three session implement classes that can appear in the registry
`_active_session_cls`: `CoroutineBasedSession`, `ThreadBasedSession` and
`ScriptModeSession` (imported at the top of the module). -/
inductive SessionCls where
  | CoroutineBasedSession
  | ThreadBasedSession
  | ScriptModeSession
deriving DecidableEq, Repr

/-- The `__name__` attribute of a session implement class, as used when
formatting the mismatch error message of `check_session_impl`. -/
def SessionCls.clsName : SessionCls → String
  | .CoroutineBasedSession => "CoroutineBasedSession"
  | .ThreadBasedSession => "ThreadBasedSession"
  | .ScriptModeSession => "ScriptModeSession"

/-- Exceptions raised by the module: `RuntimeError`, `AssertionError`,
and the session conditions `SessionNotFoundException` / `SessionException`
from `pywebio.exceptions` (`SessionNotFoundException` is the session-not-found
condition; `SessionException` the general session condition). -/
inductive PyError where
  | runtimeError (msg : String)
  | assertionError (msg : String)
  | sessionNotFoundException
  | sessionException
deriving DecidableEq, Repr

/-- The shape of a task function, as observed by the two predicates
`iscoroutinefunction` and `isgeneratorfunction` that
`register_session_implement_for_target` applies to it. -/
structure TargetFunc where
  iscoroutinefunction : Bool
  isgeneratorfunction : Bool
deriving DecidableEq, Repr

/-- `register_session_implement_for_target(target_func)`: classify the task
function by shape (coroutine/generator functions get `CoroutineBasedSession`,
everything else `ThreadBasedSession`), raise `RuntimeError` if
`ScriptModeSession` is already registered, otherwise append the chosen class
to the registry when absent and return it.  The pair is
(raised-or-returned value, registry after the call). -/
def register_session_implement_for_target (target_func : TargetFunc)
    (reg : List SessionCls) : Except PyError SessionCls × List SessionCls :=
  let cls := if target_func.iscoroutinefunction || target_func.isgeneratorfunction then
      SessionCls.CoroutineBasedSession
    else
      SessionCls.ThreadBasedSession
  if SessionCls.ScriptModeSession ∈ reg then
    (Except.error (PyError.runtimeError "Already in script mode, can't start server"), reg)
  else if cls ∈ reg then
    (Except.ok cls, reg)
  else
    (Except.ok cls, reg ++ [cls])

/-- Modelled from the spec: the per-kind classmethod `get_current_session`
(defined in `threadbased.py` / `coroutinebased.py`, outside this module)
either recognizes the calling execution unit as belonging to one of the
kind's sessions, or raises a session-not-found condition.  We abstract it as
a boolean oracle: `recognizes c = true` means `c.get_current_session()`
returns without raising `SessionNotFoundException`. -/
structure ProbeEnv where
  recognizes : SessionCls → Bool

/-- The probe loop of `get_session_implement`: walk the registered classes in
order, return the first whose `get_current_session` does not raise
`SessionNotFoundException`; raise `SessionNotFoundException` if every
registered class raises it. -/
def probe (env : ProbeEnv) : List SessionCls → Except PyError SessionCls
  | [] => Except.error PyError.sessionNotFoundException
  | c :: rest => if env.recognizes c then Except.ok c else probe env rest

/-- The observable outcome of one `get_session_implement()` call: the registry
after the call, whether `_start_script_mode_server()` was invoked, and the
returned class or raised exception. -/
structure ResolveResult where
  reg : List SessionCls
  serverStarted : Bool
  result : Except PyError SessionCls
deriving Repr

/-- `get_session_implement()`: when the registry is empty, append
`ScriptModeSession` and bootstrap the script-mode server
(`_start_script_mode_server()`, modelled from the spec as the
`serverStarted` flag: it starts the minimal ambient server loop and is
otherwise opaque here).  Then: a one-element registry returns its only
element directly; otherwise probe each registered class in order. -/
def get_session_implement (env : ProbeEnv) (reg0 : List SessionCls) : ResolveResult :=
  let boot := if reg0 = [] then (reg0 ++ [SessionCls.ScriptModeSession], true) else (reg0, false)
  match boot.1 with
  | [c] => { reg := boot.1, serverStarted := boot.2, result := Except.ok c }
  | _ => { reg := boot.1, serverStarted := boot.2, result := probe env boot.1 }

/-!  ## Dispatch adapter (`chose_impl`)

A generator-shaped function suspends by yielding a value of type `ι` and is
resumed with a value of type `ρ`; it finally returns an `α`.  The execution of
a yielded suspending call is abstracted as a function `exec : ι → ρ`. -/

/-- A generator body: either already returned, or suspended on a yielded
suspending call with a continuation expecting that call's result. -/
inductive Gen (ι ρ α : Type) where
  | ret : α → Gen ι ρ α
  | yield : ι → (ρ → Gen ι ρ α) → Gen ι ρ α

/-- Modelled from the spec: `run_as_function` (defined in `pywebio/utils.py`,
outside this module) synchronously drives the generator on the calling thread
to completion, executing each yielded suspending call and feeding its result
back into the generator, and returns the generator's final value. -/
def run_as_function (exec : ι → ρ) : Gen ι ρ α → α
  | .ret a => a
  | .yield c k => run_as_function exec (k (exec c))

/-- Modelled from the spec: `to_coroutine` (defined in `pywebio/utils.py`,
outside this module) wraps a generator into an awaitable coroutine object;
awaiting it drives the generator, awaiting each yielded suspending call, and
its eventual result is the generator's return value. -/
structure Coroutine (ι ρ α : Type) where
  gen : Gen ι ρ α

/-- Modelled from the spec: awaiting a coroutine object produced by
`to_coroutine` under an event loop that resolves each awaited suspending call
via `exec` yields the wrapped generator's return value. -/
def Coroutine.awaited (exec : ι → ρ) (co : Coroutine ι ρ α) : α :=
  run_as_function exec co.gen

/-- What a call to a `chose_impl`-wrapped function returns: an awaitable
coroutine object, or the generator's final value directly. -/
inductive ChoseResult (ι ρ α : Type) where
  | awaitable : Coroutine ι ρ α → ChoseResult ι ρ α
  | value : α → ChoseResult ι ρ α

/-- `chose_impl(gen_func)`: the wrapper builds the generator, resolves the
current session implement, and returns `to_coroutine(gen)` when the implement
is `CoroutineBasedSession`, otherwise `run_as_function(gen)`.  An exception
raised by `get_session_implement()` propagates. -/
def chose_impl (env : ProbeEnv) (reg : List SessionCls) (exec : ι → ρ)
    (gen : Gen ι ρ α) : Except PyError (ChoseResult ι ρ α) :=
  match (get_session_implement env reg).result with
  | Except.error e => Except.error e
  | Except.ok impl =>
    if impl = SessionCls.CoroutineBasedSession then
      Except.ok (ChoseResult.awaitable ⟨gen⟩)
    else
      Except.ok (ChoseResult.value (run_as_function exec gen))

/-!  ## Capability check (`check_session_impl`) -/

/-- Modelled from the spec: `issubclass` over the session implement classes.
The class definitions live in `threadbased.py` / `coroutinebased.py`, outside
this module; the spec presents the execution-model kinds as an explicit tagged
choice of distinct alternatives, so each implement class is a subclass only of
itself. -/
def issubclass (a b : SessionCls) : Bool := a = b

/-- The `RuntimeError` message built by `check_session_impl` when the current
implement does not satisfy the required session type. -/
def mismatchMessage (func_name require curr : String) : String :=
  "Only can invoke `" ++ func_name ++ "` in " ++ require ++
    " context. You are now in " ++ curr ++ " context"

/-- `check_session_impl(session_type)` applied to `func`: the inner wrapper
resolves the current implement (an exception from resolution propagates),
raises `RuntimeError` with the formatted message when the implement is not a
subclass of `session_type`, and otherwise calls `func` on the original
arguments and returns its result. -/
def check_session_impl (session_type : SessionCls) (func_name : String)
    (func : Args → Ret) (env : ProbeEnv) (reg : List SessionCls)
    (args : Args) : Except PyError Ret :=
  match (get_session_implement env reg).result with
  | Except.error e => Except.error e
  | Except.ok curr_impl =>
    if issubclass curr_impl session_type then
      Except.ok (func args)
    else
      Except.error (PyError.runtimeError
        (mismatchMessage func_name session_type.clsName curr_impl.clsName))

/-!  ## `hold`

`hold` loops forever: each iteration yields `next_client_event()`, discarding
the result; a `SessionException` escaping the yielded call is caught and the
function returns.  We model the behaviour of the suspension primitive across
the successive iterations as a list of outcomes (`Except.ok` an event, or
`Except.error` a session exception), and record how many primitive calls
`hold` makes and how it finishes. -/

/-- A client event: an inbound message with an event kind and a data payload
(`JsonValue.null` models a `None` payload). -/
inductive JsonValue where
  | null
  | jbool (b : Bool)
  | jnum (n : Int)
  | jstr (s : String)
deriving DecidableEq, Repr

/-- An inbound client event as read by the module: the `event` kind string and
the `data` payload. -/
structure ClientEvent where
  event : String
  data : JsonValue
deriving DecidableEq, Repr

/-- How a run of `hold` finished. -/
inductive HoldOutcome where
  | normalReturn
  | raised (e : PyError)
deriving DecidableEq, Repr

/-- `hold()` run against a trace of primitive outcomes: each successful
primitive call's event is discarded and the loop continues; the first call
that fails with a session exception makes `hold` return normally.  The result
is `some (number of primitive calls made, outcome)`, or `none` when the trace
is exhausted with the loop still running (i.e. `hold` has not returned within
the trace). -/
def hold : List (Except Unit ClientEvent) → Option (Nat × HoldOutcome)
  | [] => none
  | Except.ok _ :: rest =>
    match hold rest with
    | none => none
    | some r => some (r.1 + 1, r.2)
  | Except.error _ :: _ => some (1, HoldOutcome.normalReturn)

/-!  ## `run_js` / `eval_js` -/

/-- An outbound message sent through `send_msg` (from `pywebio/io_ctrl.py`):
the command name and its spec.  Only the commands this module sends are
modelled. -/
inductive OutMsg where
  | run_script (code : String) (args : List (String × JsonValue))
  | set_env (spec : List (String × JsonValue))
deriving DecidableEq, Repr

/-- `run_js(code_, **args)`: send one `run_script` message carrying the code
and the local variables. -/
def run_js (code_ : String) (args : List (String × JsonValue)) : OutMsg :=
  OutMsg.run_script code_ args

/-- Modelled from the spec: Python `%r` formatting of the expression string
(quote it and escape backslashes and quotes), as used when the expression is
spliced into the wrapper script. -/
def pyRepr (s : String) : String :=
  "'" ++ ((s.replace "\\" "\\\\").replace "'" "\\'") ++ "'"

/-- The browser-side wrapper script `eval_js` builds around the expression:
evaluate the expression and send back a `js_yield` event whose `data` is the
result (or `null`). -/
def eval_js_script (expression_ : String) : String :=
  "\n    (function(WebIO)\x7b\n        let ____result____ = null;  // to avoid naming conflict\n        try\x7b\n            ____result____ = eval(" ++
    pyRepr expression_ ++
    ");\n        \x7dcatch\x7b\x7d;\n        \n        WebIO.sendMessage(\x7b\n            event: \"js_yield\",\n            task_id: WebIOCurrentTaskID,  // local var in run_script command\n            data: ____result____ || null\n        \x7d);\n    \x7d)(WebIO);"

/-- The `AssertionError` message of `eval_js`'s reply-kind assertion. -/
def evalJsAssertMessage : String :=
  "Internal Error, please report this bug on https://github.com/wang0618/PyWebIO/issues"

/-- `eval_js(expression_, **args)` run against the single client event the
suspension primitive hands back: send the wrapper script via `run_js` (one
outbound `run_script` message), then assert the received event's kind is
`js_yield` (an `AssertionError` otherwise) and return its `data` payload.
The pair is (outbound messages sent, returned payload or raised error). -/
def eval_js (expression_ : String) (args : List (String × JsonValue))
    (res : ClientEvent) : List OutMsg × Except PyError JsonValue :=
  let msgs := [run_js (eval_js_script expression_) args]
  if res.event = "js_yield" then
    (msgs, Except.ok res.data)
  else
    (msgs, Except.error (PyError.assertionError evalJsAssertMessage))

/-!  ## `set_env` -/

/-- `set_env(**env_info)`: assert every keyword is one of the four recognized
option keys (an `AssertionError`, before anything is sent, otherwise), then
send one `set_env` message whose spec is the keyword set. -/
def set_env (env_info : List (String × JsonValue)) : Except PyError OutMsg :=
  if env_info.all (fun kv =>
      kv.1 = "title" ∨ kv.1 = "output_animation" ∨ kv.1 = "auto_scroll_bottom" ∨
        kv.1 = "http_pull_interval") then
    Except.ok (OutMsg.set_env env_info)
  else
    Except.error (PyError.assertionError "")

/-!  ## Registry evolution -/

/-- One call that can touch the process-wide registry `_active_session_cls`:
a registration for some task function, or a resolution (whose lazy-bootstrap
branch may append `ScriptModeSession`). -/
inductive RegOp where
  | register (f : TargetFunc)
  | resolve (env : ProbeEnv)

/-- The registry after one call. -/
def stepReg (reg : List SessionCls) : RegOp → List SessionCls
  | RegOp.register f => (register_session_implement_for_target f reg).2
  | RegOp.resolve env => (get_session_implement env reg).reg

/-- The registry invariant: no duplicate entries, and whenever
`ScriptModeSession` is an element it is the only element. -/
def RegInvariant (reg : List SessionCls) : Prop :=
  reg.Nodup ∧ (SessionCls.ScriptModeSession ∈ reg → reg = [SessionCls.ScriptModeSession])

/-!  ## Helper lemmas -/

/-- `probe` returns `Except.ok c` exactly when `c` is the first registered
class (in registration order) recognized by the oracle. -/
theorem probe_ok_iff (env : ProbeEnv) (reg : List SessionCls) (c : SessionCls) :
    probe env reg = Except.ok c ↔
      ∃ l1 l2, reg = l1 ++ c :: l2 ∧ env.recognizes c = true ∧
        ∀ x ∈ l1, env.recognizes x = false := by
  induction reg with
  | nil =>
    simp only [probe]
    constructor
    · intro hc; exact absurd hc (by simp)
    · rintro ⟨l1, l2, heq, -, -⟩
      exact absurd heq.symm (by simp)
  | cons a rest ih =>
    by_cases ha : env.recognizes a
    · simp only [probe, ha, if_true]
      constructor
      · intro hc
        obtain rfl : a = c := by simpa using hc
        exact ⟨[], rest, rfl, ha, by simp⟩
      · rintro ⟨l1, l2, heq, hc, hall⟩
        cases l1 with
        | nil =>
          obtain ⟨rfl, -⟩ : a = c ∧ rest = l2 := by simpa using heq
          rfl
        | cons b l1 =>
          obtain ⟨rfl, -⟩ : a = b ∧ rest = l1 ++ c :: l2 := by simpa using heq
          exact absurd ha (by simpa using hall a (by simp))
    · simp only [probe, ha, if_false, Bool.false_eq_true, ih]
      constructor
      · rintro ⟨l1, l2, heq, hc, hall⟩
        refine ⟨a :: l1, l2, by rw [heq]; rfl, hc, ?_⟩
        intro x hx
        rcases List.mem_cons.mp hx with rfl | hx
        · simpa using ha
        · exact hall x hx
      · rintro ⟨l1, l2, heq, hc, hall⟩
        cases l1 with
        | nil =>
          obtain ⟨rfl, -⟩ : a = c ∧ rest = l2 := by simpa using heq
          exact absurd hc (by simpa using ha)
        | cons b l1 =>
          obtain ⟨-, hr⟩ : a = b ∧ rest = l1 ++ c :: l2 := by simpa using heq
          exact ⟨l1, l2, hr, hc, fun x hx => hall x (by simp [hx])⟩

/-- `probe` raises `SessionNotFoundException` exactly when no registered class
recognizes the caller. -/
theorem probe_error_iff (env : ProbeEnv) (reg : List SessionCls) :
    probe env reg = Except.error PyError.sessionNotFoundException ↔
      ∀ c ∈ reg, env.recognizes c = false := by
  induction reg with
  | nil => simp [probe]
  | cons a rest ih =>
    by_cases ha : env.recognizes a
    · simp [probe, ha]
    · simp [probe, ha, ih]

/-- With at least two registered classes, resolution takes the probing
branch. -/
theorem get_session_implement_two (env : ProbeEnv) (a b : SessionCls)
    (t : List SessionCls) :
    get_session_implement env (a :: b :: t) =
      { reg := a :: b :: t, serverStarted := false,
        result := probe env (a :: b :: t) } := rfl

/-- With exactly one registered class, resolution returns it directly. -/
theorem get_session_implement_one (env : ProbeEnv) (c : SessionCls) :
    get_session_implement env [c] =
      { reg := [c], serverStarted := false, result := Except.ok c } := rfl

/-!  ## Claims -/

/-- C1: with more than one execution-model kind registered, resolution probes
the registered kinds in registration order and returns the first kind whose
`get_current_session` does not raise the session-not-found condition; it
raises `SessionNotFoundException` when every registered kind raises it. -/
theorem C1_multi_kind_resolution_probes_in_order (env : ProbeEnv)
    (reg : List SessionCls) (h : 1 < reg.length) :
    (∀ c, (get_session_implement env reg).result = Except.ok c ↔
        ∃ l1 l2, reg = l1 ++ c :: l2 ∧ env.recognizes c = true ∧
          ∀ x ∈ l1, env.recognizes x = false)
    ∧ ((get_session_implement env reg).result =
          Except.error PyError.sessionNotFoundException ↔
        ∀ c ∈ reg, env.recognizes c = false) := by
  match reg, h with
  | a :: b :: t, _ =>
    rw [get_session_implement_two]
    exact ⟨fun c => probe_ok_iff env (a :: b :: t) c,
      probe_error_iff env (a :: b :: t)⟩

/-- Witness for C1 at a concrete registry `[ThreadBasedSession,
CoroutineBasedSession]` and an oracle recognizing only the coroutine kind. -/
theorem C1_witness :
    (∀ c, (get_session_implement
          (ProbeEnv.mk (fun c => c == SessionCls.CoroutineBasedSession))
          [SessionCls.ThreadBasedSession, SessionCls.CoroutineBasedSession]).result =
            Except.ok c ↔
        ∃ l1 l2, [SessionCls.ThreadBasedSession, SessionCls.CoroutineBasedSession] =
            l1 ++ c :: l2 ∧
          (ProbeEnv.mk (fun c => c == SessionCls.CoroutineBasedSession)).recognizes c =
            true ∧
          ∀ x ∈ l1,
            (ProbeEnv.mk (fun c => c == SessionCls.CoroutineBasedSession)).recognizes x =
              false)
    ∧ ((get_session_implement
          (ProbeEnv.mk (fun c => c == SessionCls.CoroutineBasedSession))
          [SessionCls.ThreadBasedSession, SessionCls.CoroutineBasedSession]).result =
          Except.error PyError.sessionNotFoundException ↔
        ∀ c ∈ [SessionCls.ThreadBasedSession, SessionCls.CoroutineBasedSession],
          (ProbeEnv.mk (fun c => c == SessionCls.CoroutineBasedSession)).recognizes c =
            false) :=
  C1_multi_kind_resolution_probes_in_order _ _ (by decide)

/-- C3: registration raises the fatal `RuntimeError` exactly when
`ScriptModeSession` is already in the registry at the time of the call, and
in that case the registry is left unchanged. -/
theorem C3_register_fails_iff_script_mode (f : TargetFunc) (reg : List SessionCls) :
    ((register_session_implement_for_target f reg).1 =
        Except.error (PyError.runtimeError "Already in script mode, can't start server") ↔
      SessionCls.ScriptModeSession ∈ reg)
    ∧ (SessionCls.ScriptModeSession ∈ reg →
        (register_session_implement_for_target f reg).2 = reg) := by
  by_cases h : SessionCls.ScriptModeSession ∈ reg
  · simp [register_session_implement_for_target, h]
  · refine ⟨?_, fun hmem => absurd hmem h⟩
    simp only [register_session_implement_for_target, h, if_false]
    split <;> split <;> simp [h]

/-- Witness for C3 at the registry `[ScriptModeSession]`. -/
theorem C3_witness :
    SessionCls.ScriptModeSession ∈ [SessionCls.ScriptModeSession]
    ∧ (register_session_implement_for_target ⟨false, false⟩
        [SessionCls.ScriptModeSession]).2 = [SessionCls.ScriptModeSession] :=
  ⟨by decide,
    (C3_register_fails_iff_script_mode ⟨false, false⟩ [SessionCls.ScriptModeSession]).2
      (by decide)⟩

/-- C4: when registration does not hit the script-mode error, it returns
exactly the implement chosen by the function's shape: `CoroutineBasedSession`
for coroutine or generator functions, `ThreadBasedSession` for every other
callable. -/
theorem C4_register_classifies_by_shape (f : TargetFunc) (reg : List SessionCls)
    (h : SessionCls.ScriptModeSession ∉ reg) :
    (register_session_implement_for_target f reg).1 =
      Except.ok (if f.iscoroutinefunction || f.isgeneratorfunction then
        SessionCls.CoroutineBasedSession else SessionCls.ThreadBasedSession) := by
  simp only [register_session_implement_for_target, h, if_false]
  split <;> split <;> rfl

/-- Witness for C4 on a coroutine-shaped function and the empty registry. -/
theorem C4_witness :
    SessionCls.ScriptModeSession ∉ ([] : List SessionCls)
    ∧ (register_session_implement_for_target ⟨true, false⟩ []).1 =
        Except.ok (if (true : Bool) || false then SessionCls.CoroutineBasedSession
          else SessionCls.ThreadBasedSession) :=
  ⟨by decide, C4_register_classifies_by_shape ⟨true, false⟩ [] (by decide)⟩

/-- C5: resolving on an empty registry appends the script-mode kind,
bootstraps the ambient script-mode server, and returns the script-mode kind
(rather than raising session-not-found). -/
theorem C5_empty_registry_bootstraps_script_mode (env : ProbeEnv) :
    get_session_implement env [] =
      { reg := [SessionCls.ScriptModeSession], serverStarted := true,
        result := Except.ok SessionCls.ScriptModeSession } := rfl

/-- The registry left by one `get_session_implement` call: the lazy bootstrap
appends `ScriptModeSession` to an empty registry and otherwise leaves the
registry untouched. -/
theorem get_session_implement_reg (env : ProbeEnv) (reg : List SessionCls) :
    (get_session_implement env reg).reg =
      if reg = [] then [SessionCls.ScriptModeSession] else reg := by
  match reg with
  | [] => rfl
  | [c] => rfl
  | a :: b :: t => rfl

/-- The registry left by one registration call: either untouched, or extended
by a single non-script class that was not yet registered (and only when
script mode was not active). -/
theorem register_snd_cases (f : TargetFunc) (reg : List SessionCls) :
    (register_session_implement_for_target f reg).2 = reg ∨
      (SessionCls.ScriptModeSession ∉ reg ∧
        ∃ cls, cls ≠ SessionCls.ScriptModeSession ∧ cls ∉ reg ∧
          (register_session_implement_for_target f reg).2 = reg ++ [cls]) := by
  by_cases hs : SessionCls.ScriptModeSession ∈ reg
  · left; simp [register_session_implement_for_target, hs]
  · by_cases hf : (f.iscoroutinefunction || f.isgeneratorfunction) = true
    · by_cases hm : SessionCls.CoroutineBasedSession ∈ reg
      · left; simp [register_session_implement_for_target, hs, hf, hm]
      · right
        refine ⟨hs, SessionCls.CoroutineBasedSession, by simp, hm, ?_⟩
        simp [register_session_implement_for_target, hs, hf, hm]
    · by_cases hm : SessionCls.ThreadBasedSession ∈ reg
      · left; simp [register_session_implement_for_target, hs, hf, hm]
      · right
        refine ⟨hs, SessionCls.ThreadBasedSession, by simp, hm, ?_⟩
        simp [register_session_implement_for_target, hs, hf, hm]

/-- Both registry-touching operations preserve the registry invariant. -/
theorem stepReg_preserves (reg : List SessionCls) (op : RegOp)
    (h : RegInvariant reg) : RegInvariant (stepReg reg op) := by
  obtain ⟨hnd, hscript⟩ := h
  cases op with
  | register f =>
    show RegInvariant (register_session_implement_for_target f reg).2
    rcases register_snd_cases f reg with heq | ⟨hs, cls, hne, hmem, heq⟩
    · rw [heq]; exact ⟨hnd, hscript⟩
    · rw [heq]
      constructor
      · simp [List.nodup_append, hnd, hmem]
      · intro hmemS
        rcases List.mem_append.mp hmemS with h1 | h1
        · exact absurd h1 hs
        · simp at h1
          exact absurd h1.symm hne
  | resolve env =>
    show RegInvariant (get_session_implement env reg).reg
    rw [get_session_implement_reg]
    by_cases he : reg = []
    · simp [he, RegInvariant]
    · simpa [he] using ⟨hnd, hscript⟩

/-- C10: after every sequence of registration and resolution calls starting
from the empty registry, the registry has no duplicate entries, and whenever
`ScriptModeSession` is an element it is the only element. -/
theorem C10_registry_invariant (ops : List RegOp) :
    RegInvariant (ops.foldl stepReg []) := by
  have main : ∀ (l : List RegOp) (reg : List SessionCls),
      RegInvariant reg → RegInvariant (l.foldl stepReg reg) := by
    intro l
    induction l with
    | nil => intro reg h; exact h
    | cons op rest ih => intro reg h; exact ih _ (stepReg_preserves reg op h)
  exact main ops [] ⟨List.nodup_nil, by simp⟩

/-- Witness for C10 on a concrete call sequence: register a plain function,
resolve, register a coroutine function. -/
theorem C10_witness :
    RegInvariant ([RegOp.register ⟨false, false⟩,
      RegOp.resolve (ProbeEnv.mk (fun _ => true)),
      RegOp.register ⟨true, false⟩].foldl stepReg []) :=
  C10_registry_invariant _

/-- C6: a function wrapped by `check_session_impl` for a required session type
raises a `RuntimeError` naming both the required and the actual implement —
without invoking the wrapped function (the outcome does not depend on it) —
when the resolved implement differs from the required kind, and otherwise
invokes the wrapped function on the original arguments and returns its
result. -/
theorem C6_capability_check {Args Ret : Type} (session_type : SessionCls)
    (func_name : String) (func func2 : Args → Ret) (args : Args)
    (env : ProbeEnv) (reg : List SessionCls) (curr : SessionCls)
    (h : (get_session_implement env reg).result = Except.ok curr) :
    (curr ≠ session_type →
      check_session_impl session_type func_name func env reg args =
          Except.error (PyError.runtimeError
            (mismatchMessage func_name session_type.clsName curr.clsName)) ∧
        check_session_impl session_type func_name func env reg args =
          check_session_impl session_type func_name func2 env reg args ∧
        ∃ s1 s2 s3, mismatchMessage func_name session_type.clsName curr.clsName =
          s1 ++ session_type.clsName ++ s2 ++ curr.clsName ++ s3)
    ∧ (curr = session_type →
        check_session_impl session_type func_name func env reg args =
          Except.ok (func args)) := by
  constructor
  · intro hne
    have hsub : issubclass curr session_type = false := by
      simp [issubclass, hne]
    refine ⟨?_, ?_, ?_⟩
    · simp [check_session_impl, h, hsub]
    · simp [check_session_impl, h, hsub]
    · exact ⟨"Only can invoke `" ++ func_name ++ "` in ",
        " context. You are now in ", " context", rfl⟩
  · intro heq
    have hsub : issubclass curr session_type = true := by
      simp [issubclass, heq]
    simp [check_session_impl, h, hsub]

/-- Witness for C6: `run_async` requires the coroutine-backed implement while
the registry resolves to the thread-backed one. -/
theorem C6_witness :
    (SessionCls.ThreadBasedSession ≠ SessionCls.CoroutineBasedSession →
      check_session_impl SessionCls.CoroutineBasedSession "run_async"
          (fun n : Nat => n + 1) (ProbeEnv.mk (fun _ => false))
          [SessionCls.ThreadBasedSession] 0 =
          Except.error (PyError.runtimeError
            (mismatchMessage "run_async" SessionCls.CoroutineBasedSession.clsName
              SessionCls.ThreadBasedSession.clsName)) ∧
        check_session_impl SessionCls.CoroutineBasedSession "run_async"
          (fun n : Nat => n + 1) (ProbeEnv.mk (fun _ => false))
          [SessionCls.ThreadBasedSession] 0 =
          check_session_impl SessionCls.CoroutineBasedSession "run_async"
            (fun n : Nat => n + 2) (ProbeEnv.mk (fun _ => false))
            [SessionCls.ThreadBasedSession] 0 ∧
        ∃ s1 s2 s3, mismatchMessage "run_async" SessionCls.CoroutineBasedSession.clsName
            SessionCls.ThreadBasedSession.clsName =
          s1 ++ SessionCls.CoroutineBasedSession.clsName ++ s2 ++
            SessionCls.ThreadBasedSession.clsName ++ s3)
    ∧ (SessionCls.ThreadBasedSession = SessionCls.CoroutineBasedSession →
        check_session_impl SessionCls.CoroutineBasedSession "run_async"
          (fun n : Nat => n + 1) (ProbeEnv.mk (fun _ => false))
          [SessionCls.ThreadBasedSession] 0 = Except.ok ((fun n : Nat => n + 1) 0)) :=
  C6_capability_check SessionCls.CoroutineBasedSession "run_async"
    (fun n : Nat => n + 1) (fun n : Nat => n + 2) 0 (ProbeEnv.mk (fun _ => false))
    [SessionCls.ThreadBasedSession] SessionCls.ThreadBasedSession rfl

/-- C2: a `chose_impl`-wrapped generator function returns, under the
coroutine-backed implement, an awaitable whose eventual result is the
generator's return value, and under any other resolved implement the
generator's final value directly, driven synchronously. -/
theorem C2_chose_impl_dispatch {ι ρ α : Type} (env : ProbeEnv)
    (reg : List SessionCls) (exec : ι → ρ) (gen : Gen ι ρ α) :
    ((get_session_implement env reg).result = Except.ok SessionCls.CoroutineBasedSession →
      ∃ co, chose_impl env reg exec gen = Except.ok (ChoseResult.awaitable co) ∧
        co.awaited exec = run_as_function exec gen)
    ∧ (∀ impl, (get_session_implement env reg).result = Except.ok impl →
        impl ≠ SessionCls.CoroutineBasedSession →
        chose_impl env reg exec gen =
          Except.ok (ChoseResult.value (run_as_function exec gen))) := by
  constructor
  · intro h
    refine ⟨⟨gen⟩, ?_, rfl⟩
    simp [chose_impl, h]
  · intro impl h hne
    simp [chose_impl, h, hne]

/-- Witness for C2: a one-suspension generator dispatched under a registry
resolving to the coroutine-backed implement. -/
theorem C2_witness :
    ∃ co, chose_impl (ProbeEnv.mk (fun _ => false)) [SessionCls.CoroutineBasedSession]
        (fun n : Nat => n * 2) (Gen.yield 5 (fun r => Gen.ret (r + 1))) =
        Except.ok (ChoseResult.awaitable co) ∧
      co.awaited (fun n : Nat => n * 2) =
        run_as_function (fun n : Nat => n * 2) (Gen.yield 5 (fun r => Gen.ret (r + 1))) :=
  (C2_chose_impl_dispatch (ProbeEnv.mk (fun _ => false))
    [SessionCls.CoroutineBasedSession] (fun n : Nat => n * 2)
    (Gen.yield 5 (fun r => Gen.ret (r + 1)))).1 rfl

/-- C7: against any trace of successful primitive calls followed by a session
exception, `hold` discards every event, returns normally exactly at the first
failing call (making one call per event plus the failing one), and never
returns while the primitive keeps succeeding. -/
theorem C7_hold_discards_until_session_exception (evs : List ClientEvent) :
    hold (evs.map Except.ok ++ [Except.error ()]) =
        some (evs.length + 1, HoldOutcome.normalReturn)
    ∧ hold (evs.map Except.ok) = none := by
  induction evs with
  | nil => exact ⟨rfl, rfl⟩
  | cons a t ih =>
    constructor
    · simp [hold, ih.1]
    · simp [hold, ih.2]

/-- C8: `eval_js` sends exactly one outbound `run_script` message and then
consumes exactly one client event; a `js_yield` event's data payload is
returned as-is (a `null` payload included), and any other event kind raises
the fatal internal `AssertionError`. -/
theorem C8_eval_js_protocol (expression_ : String)
    (args : List (String × JsonValue)) (res : ClientEvent) :
    (eval_js expression_ args res).1 =
        [OutMsg.run_script (eval_js_script expression_) args]
    ∧ (res.event = "js_yield" →
        (eval_js expression_ args res).2 = Except.ok res.data)
    ∧ (res.event ≠ "js_yield" →
        (eval_js expression_ args res).2 =
          Except.error (PyError.assertionError evalJsAssertMessage)) := by
  by_cases h : res.event = "js_yield" <;> simp [eval_js, run_js, h]

/-- Witness for C8: a `js_yield` reply with an absent-value (`null`) payload
is returned, not treated as an error. -/
theorem C8_witness :
    (ClientEvent.mk "js_yield" JsonValue.null).event = "js_yield"
    ∧ (eval_js "window.location.href" []
          (ClientEvent.mk "js_yield" JsonValue.null)).2 =
        Except.ok (ClientEvent.mk "js_yield" JsonValue.null).data :=
  ⟨rfl, (C8_eval_js_protocol "window.location.href" []
    (ClientEvent.mk "js_yield" JsonValue.null)).2.1 rfl⟩

/-- C9: `set_env` sends the `set_env` message exactly when every keyword is
one of `title`, `output_animation`, `auto_scroll_bottom`,
`http_pull_interval`; any other key raises the `AssertionError` before any
message is sent. -/
theorem C9_set_env_validates_keys (env_info : List (String × JsonValue)) :
    ((∃ m, set_env env_info = Except.ok m) ↔
      ∀ kv ∈ env_info, kv.1 = "title" ∨ kv.1 = "output_animation" ∨
        kv.1 = "auto_scroll_bottom" ∨ kv.1 = "http_pull_interval")
    ∧ ((∀ kv ∈ env_info, kv.1 = "title" ∨ kv.1 = "output_animation" ∨
          kv.1 = "auto_scroll_bottom" ∨ kv.1 = "http_pull_interval") →
        set_env env_info = Except.ok (OutMsg.set_env env_info))
    ∧ (¬(∀ kv ∈ env_info, kv.1 = "title" ∨ kv.1 = "output_animation" ∨
          kv.1 = "auto_scroll_bottom" ∨ kv.1 = "http_pull_interval") →
        set_env env_info = Except.error (PyError.assertionError "")) := by
  by_cases hb : env_info.all (fun kv => kv.1 = "title" ∨ kv.1 = "output_animation" ∨
      kv.1 = "auto_scroll_bottom" ∨ kv.1 = "http_pull_interval")
  · have hprop : ∀ kv ∈ env_info, kv.1 = "title" ∨ kv.1 = "output_animation" ∨
        kv.1 = "auto_scroll_bottom" ∨ kv.1 = "http_pull_interval" := by
      simpa using hb
    refine ⟨⟨fun _ => hprop, fun _ => ⟨OutMsg.set_env env_info, ?_⟩⟩,
      fun _ => ?_, fun hn => absurd hprop hn⟩
    · unfold set_env
      rw [if_pos hb]
    · unfold set_env
      rw [if_pos hb]
  · have hprop : ¬∀ kv ∈ env_info, kv.1 = "title" ∨ kv.1 = "output_animation" ∨
        kv.1 = "auto_scroll_bottom" ∨ kv.1 = "http_pull_interval" := by
      simpa using hb
    refine ⟨⟨?_, fun hall => absurd hall hprop⟩,
      fun hall => absurd hall hprop, fun _ => ?_⟩
    · rintro ⟨m, hm⟩
      unfold set_env at hm
      rw [if_neg hb] at hm
      exact absurd hm (by simp)
    · unfold set_env
      rw [if_neg hb]

/-- Witness for C9: an unrecognized key makes `set_env` fail with the
`AssertionError` and send nothing. -/
theorem C9_witness :
    ¬(∀ kv ∈ [("volume", JsonValue.jnum 1)], kv.1 = "title" ∨
        kv.1 = "output_animation" ∨ kv.1 = "auto_scroll_bottom" ∨
        kv.1 = "http_pull_interval")
    ∧ set_env [("volume", JsonValue.jnum 1)] =
        Except.error (PyError.assertionError "") :=
  ⟨by decide, (C9_set_env_validates_keys [("volume", JsonValue.jnum 1)]).2.2 (by decide)⟩
